import Mathlib

/-!
Shallow embedding of `DataLoading/data_loader.py` (class `SamplesDataLoader`).

Python collaborators are modelled explicitly:
* the filesystem is a record of pure query functions (`FS`);
* `os.listdir` on a missing directory, `pd.read_csv` on a missing file and
  `shutil.copy` from a missing source raise, modelled with `Option`/`Except`;
* a CSV cell is `Option ℚ` (`none` = a value that cannot be coerced to a
  number, which makes the structured-array conversion raise);
* numpy casts to `int32`/`uint8` truncate toward zero and wrap;
* Python list indexing (`self.samples[idx]`) supports negative indices and
  raises `IndexError` outside `[-len, len)`;
* a transform is an arbitrary callable from the decoded event array to either
  a list of 256×256 grids or `none` (a filtered / rejected sample).
-/

namespace SpadesLoader

/-- Error taxonomy for the raised Python exceptions: `FileNotFoundError`,
`ValueError` from the structured-array conversion, `IndexError` from list
indexing, and `TypeError` from calling a `None` transform. -/
inductive Err where
  | notFound
  | decodeError
  | rangeError
  | configError
  deriving DecidableEq, Repr

/-- Floor of a rational as executable integer arithmetic
(`q.num / q.den` with euclidean division, which Mathlib proves equal to `⌊q⌋`). -/
def ratFloor (q : ℚ) : Int := q.num / (q.den : Int)

/-- Truncation toward zero, the C-cast rounding numpy applies when storing a
float into an integer array. -/
def truncZ (q : ℚ) : Int := if 0 ≤ q then ratFloor q else -ratFloor (-q)

/-- Wrap an integer into `uint8` range, as a `Nat` in `[0, 256)`. -/
def wrapU8 (n : Int) : Nat := (n % 256).toNat

/-- numpy store of a float value into a `uint8` array cell. -/
def npUInt8 (q : ℚ) : Nat := wrapU8 (truncZ q)

/-- Wrap an integer into signed `int32` range. -/
def wrap32 (n : Int) : Int :=
  if 2147483648 ≤ n % 4294967296 then n % 4294967296 - 4294967296
  else n % 4294967296

/-- numpy coercion of a numeric CSV cell into an `int32` field. -/
def toInt32 (q : ℚ) : Int := wrap32 (truncZ q)

/-- `int32` range predicate. -/
def int32range (n : Int) : Prop := -2147483648 ≤ n ∧ n < 2147483648

/-- One raw CSV row of the event file: four positional cells, read as columns
`t, x, y, p`; `none` marks a cell that cannot be coerced to a number. -/
structure RawRow where
  ct : Option ℚ
  cx : Option ℚ
  cy : Option ℚ
  cp : Option ℚ
  deriving DecidableEq, Repr

/-- One decoded event, the structured-array dtype
`[('t','float64'), ('x','int32'), ('y','int32'), ('p','int32')]`
(fields in this order; `float64` modelled as `ℚ`, `int32` as wrapped `Int`). -/
structure EventRecord where
  t : ℚ
  x : Int
  y : Int
  p : Int
  deriving DecidableEq, Repr

/-- Decode one row; any non-numeric cell makes the structured-array
conversion raise `ValueError`. -/
def decodeRow (r : RawRow) : Except Err EventRecord :=
  match r.ct, r.cx, r.cy, r.cp with
  | some t, some x, some y, some p =>
      Except.ok ⟨t, toInt32 x, toInt32 y, toInt32 p⟩
  | _, _, _, _ => Except.error Err.decodeError

/-- `np.array([tuple(row) for row in events_df.to_numpy()], dtype=dtype)`:
decode the rows in input order; the whole conversion fails if any row does. -/
def decode_events : List RawRow → Except Err (List EventRecord)
  | [] => Except.ok []
  | r :: rs =>
    match decodeRow r with
    | Except.error e => Except.error e
    | Except.ok ev =>
      match decode_events rs with
      | Except.error e => Except.error e
      | Except.ok evs => Except.ok (ev :: evs)

/-- A 256×256 array of floats (one transformed "event" as consumed by
`generate_rgb_from_samples`; a scalar is the constant grid). -/
def Grid : Type := Fin 256 → Fin 256 → ℚ

/-- The constant grid (numpy broadcast of a scalar). -/
def constGrid (q : ℚ) : Grid := fun _ _ => q

/-- A rendered 256×256×3 frame of 8-bit values `(R, G, B)`. -/
def Frame : Type := Fin 256 → Fin 256 → Nat × Nat × Nat

/-- `np.zeros((256,256,3), dtype=np.uint8)` before any channel is written. -/
def zeroFrame : Frame := fun _ _ => (0, 0, 0)

/-- Fill the three channels: `rgb_frame[:,:,c] = grid*255` stored as `uint8`. -/
def mkFrame (r g b : Grid) : Frame :=
  fun i j => (npUInt8 (r i j * 255), npUInt8 (g i j * 255), npUInt8 (b i j * 255))

/-- `SamplesDataLoader.generate_rgb_from_samples`: the loop
`for frame in range(0, (len(sample_events)//3)*3, 3)` builds one frame from
each full group of 3 consecutive transformed values. -/
def generate_rgb_from_samples (sample_events : List Grid) : List Frame :=
  (List.range (sample_events.length / 3)).map fun k =>
    mkFrame (sample_events.getD (3 * k) (constGrid 0))
            (sample_events.getD (3 * k + 1) (constGrid 0))
            (sample_events.getD (3 * k + 2) (constGrid 0))

/-- Label rows as loaded by `_load_labels` (content is opaque to the core). -/
def LabelData : Type := List (List ℚ)

/-- The transform collaborator: an arbitrary callable over the decoded event
array; `none` output is the "sample rejected while filtering" signal. -/
def Transform : Type := List EventRecord → Option (List Grid)

/-- The filesystem collaborator, as pure queries. `listDir`/`readFile`/
`readLabels` return `none` when the directory/file is missing (the Python
call raises `FileNotFoundError`). -/
structure FS where
  listDir : String → Option (List String)
  readFile : String → Option (List RawRow)
  readLabels : String → Option LabelData
  hasFile : String → Bool
  hasDir : String → Bool

/-- The state of a constructed `SamplesDataLoader`. -/
structure Dataset where
  root_dir : String
  dataset_type : String
  samples : List (String × Option String)
  transform : Option Transform

/-- The module-level global `root_dir` of `data_loader.py` (line 9). -/
def root_dir : String := "/Users/jost/Downloads/SPADES"

/-- `os.path.join(self.root_dir, self.dataset_type, "events")`. -/
def eventsDir (root dtype : String) : String := root ++ "/" ++ dtype ++ "/events"

/-- `os.path.join(self.root_dir, self.dataset_type, "labels")`. -/
def labelsDir (root dtype : String) : String := root ++ "/" ++ dtype ++ "/labels"

/-- Python `s.endswith(suffix)` (structural, over code points). -/
def strEndsWith (s suffix : String) : Bool := List.isSuffixOf suffix.data s.data

/-- Helper for `splitOnChar`: accumulate the current chunk (reversed). -/
def splitOnCharAux (c : Char) : List Char → List Char → List (List Char)
  | [], acc => [acc.reverse]
  | x :: xs, acc =>
    if x = c then acc.reverse :: splitOnCharAux c xs []
    else splitOnCharAux c xs (x :: acc)

/-- Python `s.split(c)` for a one-character separator. -/
def splitOnChar (c : Char) (s : String) : List String :=
  (splitOnCharAux c s.data []).map String.mk

/-- Python `s[n:]` (drop the first `n` code points). -/
def strDrop (s : String) (n : Nat) : String := String.mk (s.data.drop n)

/-- Lexicographic `≤` on code-point lists (Python string comparison). -/
def charListLe : List Char → List Char → Bool
  | [], _ => true
  | _ :: _, [] => false
  | a :: as, b :: bs =>
    if a.toNat < b.toNat then true
    else if b.toNat < a.toNat then false
    else charListLe as bs

/-- Python `a <= b` on strings: lexicographic comparison of code points. -/
def strLe (a b : String) : Bool := charListLe a.data b.data

/-- Insert a string into a sorted list, keeping `strLe` order. -/
def insertStr (x : String) : List String → List String
  | [] => [x]
  | y :: ys => if strLe x y then x :: y :: ys else y :: insertStr x ys

/-- Python's `sorted` on file names: sort lexicographically by `≤`
(insertion sort; on a linearly ordered type every correct sort agrees). -/
def sortStrings : List String → List String
  | [] => []
  | x :: xs => insertStr x (sortStrings xs)

/-- `SamplesDataLoader._load_samples`: build the descriptor index.
`os.listdir` runs only inside the `"synthetic"` / `"Real"` branches; every
other `dataset_type` falls through and returns the empty list. -/
def load_samples (root dtype : String) (fs : FS) :
    Except Err (List (String × Option String)) :=
  if dtype = "synthetic" then
    match fs.listDir (eventsDir root dtype) with
    | none => Except.error Err.notFound
    | some files =>
      Except.ok (((sortStrings files).filter (fun f => strEndsWith f ".csv")).map
        (fun f => (eventsDir root dtype ++ "/" ++ f,
                   some (labelsDir root dtype ++ "/" ++ f))))
  else if dtype = "Real" then
    match fs.listDir (eventsDir root dtype) with
    | none => Except.error Err.notFound
    | some files =>
      Except.ok (((sortStrings files).filter (fun f => strEndsWith f ".csv")).map
        (fun f => (eventsDir root dtype ++ "/" ++ f, none)))
  else Except.ok []

/-- Python list indexing `l[i]` for `int` `i`: negative indices count from the
end; outside `[-len, len)` an `IndexError` is raised (`none`). -/
def pyListGet {α : Type} (l : List α) (i : Int) : Option α :=
  if 0 ≤ i then l[i.toNat]?
  else if 0 ≤ (l.length : Int) + i then l[((l.length : Int) + i).toNat]?
  else none

/-- `SamplesDataLoader._load_events`: read the CSV (I/O happens first), build
the structured array, then call `self.transform` — a `None` transform raises
`TypeError` only after the file has been read and decoded. -/
def load_events (transform : Option Transform) (fs : FS) (file_path : String) :
    Except Err (Option (List Grid)) :=
  match fs.readFile file_path with
  | none => Except.error Err.notFound
  | some rows =>
    match decode_events rows with
    | Except.error e => Except.error e
    | Except.ok events =>
      match transform with
      | none => Except.error Err.configError
      | some t => Except.ok (t events)

/-- A resolved sample: transformed events (or `none` if filtered) and the
optional labels. -/
def Sample : Type := Option (List Grid) × Option LabelData

/-- `SamplesDataLoader.__getitem__`: index the descriptor list, load + decode
+ transform the events, then load labels when a label path is present. -/
def getitem (ds : Dataset) (fs : FS) (idx : Int) : Except Err Sample :=
  match pyListGet ds.samples idx with
  | none => Except.error Err.rangeError
  | some (event_file, label_file) =>
    match load_events ds.transform fs event_file with
    | Except.error e => Except.error e
    | Except.ok events =>
      match label_file with
      | none => Except.ok (events, none)
      | some lf =>
        match fs.readLabels lf with
        | none => Except.error Err.notFound
        | some ls => Except.ok (events, some ls)

/-- `self.samples[idx][0].split('/')[-1].split('.')[0]`. -/
def trajName (p : String) : String :=
  (splitOnChar '.' ((splitOnChar '/' p).getLastD "")).headD ""

/-- Python `f"{i:03}"`: decimal digits zero-padded on the left to width 3. -/
def pad3 (i : Nat) : String :=
  String.mk (List.replicate (3 - (Nat.repr i).length) '0') ++ Nat.repr i

/-- The (broken) f-string literal printed for a filtered sample. -/
def rejectMsg : String := "Event with index f{idx} rejected while filtering."

/-- Observable side effects of `save_sample`, in program order. -/
inductive Effect where
  | mkdirE (path : String)
  | logE (msg : String)
  | writeFrameE (path : String)
  | copyE (src dst : String)
  deriving DecidableEq, Repr

/-- `SamplesDataLoader.save_sample`: create the output directory if absent,
fetch the sample, stop after a log line when the events were filtered,
otherwise write the rendered frames and finally `shutil.copy` the label CSV
from the module-global `root_dir` (not from the descriptor). Returns the
effect trace in program order and the outcome. -/
def save_sample (ds : Dataset) (fs : FS) (idx : Int) (file_path : String) :
    List Effect × Except Err Unit :=
  match pyListGet ds.samples idx with
  | none => ([], Except.error Err.rangeError)
  | some (event_file, _) =>
    let traj_name := trajName event_file
    let dir := file_path ++ "/" ++ traj_name ++ "/"
    let mk : List Effect := if fs.hasDir dir then [] else [Effect.mkdirE dir]
    match getitem ds fs idx with
    | Except.error e => (mk, Except.error e)
    | Except.ok (events, _labels) =>
      match events with
      | none => (mk ++ [Effect.logE rejectMsg], Except.ok ())
      | some evs =>
        let frames := generate_rgb_from_samples evs
        let writes := frames.enum.map fun pr =>
          Effect.writeFrameE
            (dir ++ "img" ++ pad3 pr.1 ++ "_" ++ strDrop traj_name 4 ++ ".png")
        let csv_src := root_dir ++ "/synthetic/labels/" ++ traj_name ++ ".csv"
        let csv_dst := dir ++ traj_name ++ ".csv"
        if fs.hasFile csv_src then
          (mk ++ writes ++ [Effect.copyE csv_src csv_dst], Except.ok ())
        else
          (mk ++ writes, Except.error Err.notFound)

/-- Paths of the frame images written in an effect trace. -/
def framePaths (effs : List Effect) : List String :=
  effs.filterMap fun e =>
    match e with
    | Effect.writeFrameE p => some p
    | _ => none

/-! Helper lemmas. -/

lemma truncZ_eq_floor (q : ℚ) (h : 0 ≤ q) : truncZ q = ⌊q⌋ := by
  rw [truncZ, if_pos h, ratFloor, Rat.floor_def]

lemma npUInt8_eq_floor (q : ℚ) (h0 : 0 ≤ q) (h1 : q ≤ 255) :
    npUInt8 q = Int.toNat ⌊q⌋ := by
  have hf0 : (0 : Int) ≤ ⌊q⌋ := Int.floor_nonneg.mpr h0
  have hf1 : ⌊q⌋ < 256 := by
    have h255 : ⌊q⌋ ≤ ⌊(255 : ℚ)⌋ := Int.floor_le_floor h1
    have : ⌊(255 : ℚ)⌋ = 255 := by norm_num
    omega
  rw [npUInt8, wrapU8, truncZ_eq_floor q h0, Int.emod_eq_of_lt hf0 hf1]

lemma npUInt8_lt (q : ℚ) : npUInt8 q < 256 := by
  rw [npUInt8, wrapU8]
  have h0 : (0 : Int) ≤ truncZ q % 256 := Int.emod_nonneg _ (by norm_num)
  have h1 : truncZ q % 256 < 256 := Int.emod_lt_of_pos _ (by norm_num)
  omega

lemma generate_rgb_length (es : List Grid) :
    (generate_rgb_from_samples es).length = es.length / 3 := by
  simp [generate_rgb_from_samples]

lemma generate_rgb_getD (es : List Grid) (m : ℕ) (hm : m < es.length / 3) :
    (generate_rgb_from_samples es).getD m zeroFrame =
      mkFrame (es.getD (3 * m) (constGrid 0)) (es.getD (3 * m + 1) (constGrid 0))
        (es.getD (3 * m + 2) (constGrid 0)) := by
  rw [generate_rgb_from_samples, List.getD_eq_getElem?_getD, List.getElem?_map,
    List.getElem?_range hm]
  rfl

/-! C1. -/

/-- C1: for a transformed stream of length `3k + r` with `r < 3`, the frame
renderer produces exactly `k` frames (the trailing `r` values are dropped);
every channel value is an 8-bit value (`< 256`); and wherever the three run
elements of group `m` hold values in `[0, 1]`, the frame's `(R, G, B)` cell is
`(⌊v0*255⌋, ⌊v1*255⌋, ⌊v2*255⌋)` — run element 0/1/2 goes to channel R/G/B. -/
theorem frame_renderer_grouping (es : List Grid) (k r : ℕ) (hr : r < 3)
    (hlen : es.length = 3 * k + r) :
    (generate_rgb_from_samples es).length = k ∧
    (∀ m, m < k → ∀ i j : Fin 256,
      ((generate_rgb_from_samples es).getD m zeroFrame i j).1 < 256 ∧
      ((generate_rgb_from_samples es).getD m zeroFrame i j).2.1 < 256 ∧
      ((generate_rgb_from_samples es).getD m zeroFrame i j).2.2 < 256) ∧
    (∀ m, m < k → ∀ i j : Fin 256, ∀ v0 v1 v2 : ℚ,
      es.getD (3 * m) (constGrid 0) i j = v0 →
      es.getD (3 * m + 1) (constGrid 0) i j = v1 →
      es.getD (3 * m + 2) (constGrid 0) i j = v2 →
      0 ≤ v0 → v0 ≤ 1 → 0 ≤ v1 → v1 ≤ 1 → 0 ≤ v2 → v2 ≤ 1 →
      (generate_rgb_from_samples es).getD m zeroFrame i j =
        (Int.toNat ⌊v0 * 255⌋, Int.toNat ⌊v1 * 255⌋, Int.toNat ⌊v2 * 255⌋)) := by
  have hk : es.length / 3 = k := by omega
  refine ⟨by rw [generate_rgb_length, hk], ?_, ?_⟩
  · intro m hm i j
    rw [generate_rgb_getD es m (by omega)]
    exact ⟨npUInt8_lt _, npUInt8_lt _, npUInt8_lt _⟩
  · intro m hm i j v0 v1 v2 h0 h1 h2 h0a h0b h1a h1b h2a h2b
    rw [generate_rgb_getD es m (by omega), mkFrame, h0, h1, h2]
    have e0 : npUInt8 (v0 * 255) = Int.toNat ⌊v0 * 255⌋ :=
      npUInt8_eq_floor _ (by positivity) (by nlinarith)
    have e1 : npUInt8 (v1 * 255) = Int.toNat ⌊v1 * 255⌋ :=
      npUInt8_eq_floor _ (by positivity) (by nlinarith)
    have e2 : npUInt8 (v2 * 255) = Int.toNat ⌊v2 * 255⌋ :=
      npUInt8_eq_floor _ (by positivity) (by nlinarith)
    rw [e0, e1, e2]

/-- The spec's worked example: transformed scalars `[0.0, 0.5, 1.0, 0.2]`. -/
def exampleEvents : List Grid :=
  [constGrid 0, constGrid (1 / 2), constGrid 1, constGrid (1 / 5)]

/-- C1 witness: `[0.0, 0.5, 1.0, 0.2]` yields exactly 1 frame whose channel
values are `[0, 127, 255]`; the trailing `0.2` is dropped. -/
theorem frame_renderer_grouping_witness :
    (generate_rgb_from_samples exampleEvents).length = 1 ∧
    (generate_rgb_from_samples exampleEvents).getD 0 zeroFrame 0 0 =
      (0, 127, 255) := by
  have h := frame_renderer_grouping exampleEvents 1 1 (by norm_num) (by rfl)
  refine ⟨h.1, ?_⟩
  have h2 := h.2.2 0 (by norm_num) 0 0 0 (1 / 2) 1 rfl rfl rfl (by norm_num)
    (by norm_num) (by norm_num) (by norm_num) (by norm_num) (by norm_num)
  rw [h2]
  norm_num [Prod.ext_iff]
  exact ⟨rfl, rfl⟩

/-! C2. -/

lemma wrap32_range (n : Int) : int32range (wrap32 n) := by
  unfold wrap32 int32range
  have h0 : (0 : Int) ≤ n % 4294967296 := Int.emod_nonneg _ (by norm_num)
  have h1 : n % 4294967296 < 4294967296 := Int.emod_lt_of_pos _ (by norm_num)
  split <;> omega

/-- A fully numeric row list decodes to the ok row-by-row coercion. -/
lemma decode_events_ok_of_numeric (rows : List RawRow)
    (h : ∀ r ∈ rows, r.ct.isSome ∧ r.cx.isSome ∧ r.cy.isSome ∧ r.cp.isSome) :
    decode_events rows =
      Except.ok (rows.map fun r =>
        ⟨r.ct.getD 0, toInt32 (r.cx.getD 0), toInt32 (r.cy.getD 0),
         toInt32 (r.cp.getD 0)⟩) := by
  induction rows with
  | nil => rfl
  | cons r rs ih =>
    have hr := h r (List.mem_cons_self r rs)
    obtain ⟨vt, hct⟩ := Option.isSome_iff_exists.mp hr.1
    obtain ⟨vx, hcx⟩ := Option.isSome_iff_exists.mp hr.2.1
    obtain ⟨vy, hcy⟩ := Option.isSome_iff_exists.mp hr.2.2.1
    obtain ⟨vp, hcp⟩ := Option.isSome_iff_exists.mp hr.2.2.2
    have hrs := ih fun a ha => h a (List.mem_cons_of_mem _ ha)
    simp [decode_events, decodeRow, hct, hcx, hcy, hcp, hrs]

/-- A row with a non-numeric `x` cell makes decoding fail. -/
lemma decode_events_error_of_bad (rows : List RawRow)
    (h : ∃ r ∈ rows, r.cx = none) :
    decode_events rows = Except.error Err.decodeError := by
  induction rows with
  | nil => simp at h
  | cons r rs ih =>
    obtain ⟨b, hb, hbx⟩ := h
    rcases List.mem_cons.mp hb with hb | hb
    · subst hb
      have hdr : decodeRow b = Except.error Err.decodeError := by
        rcases b with ⟨ct, cx, cy, cp⟩
        simp only at hbx
        subst hbx
        cases ct <;> cases cy <;> cases cp <;> rfl
      simp [decode_events, hdr]
    · have hrs := ih ⟨b, hb, hbx⟩
      cases hdr : decodeRow r with
      | error e =>
        have he : e = Err.decodeError := by
          rcases r with ⟨ct, cx, cy, cp⟩
          cases ct <;> cases cx <;> cases cy <;> cases cp <;>
            simp_all [decodeRow]
        simp [decode_events, hdr, he]
      | ok ev => simp [decode_events, hdr, hrs]

/-- C2: decoding a 4-column tabular source with all-numeric rows succeeds and
yields one record per row, in row order, each carrying exactly the fields
`t, x, y, p` with `t` the raw rational (float64) and `x, y, p` coerced into
`int32` range; a row with a non-numeric `x` makes the whole decode fail with
the decode error instead of being skipped or recovered. -/
theorem codec_schema (rows : List RawRow) :
    ((∀ r ∈ rows, r.ct.isSome ∧ r.cx.isSome ∧ r.cy.isSome ∧ r.cp.isSome) →
      ∃ es, decode_events rows = Except.ok es ∧
        es.length = rows.length ∧
        (∀ i, i < rows.length →
          es.getD i ⟨0, 0, 0, 0⟩ =
            ⟨(rows.getD i ⟨none, none, none, none⟩).ct.getD 0,
             toInt32 ((rows.getD i ⟨none, none, none, none⟩).cx.getD 0),
             toInt32 ((rows.getD i ⟨none, none, none, none⟩).cy.getD 0),
             toInt32 ((rows.getD i ⟨none, none, none, none⟩).cp.getD 0)⟩) ∧
        (∀ e ∈ es, int32range e.x ∧ int32range e.y ∧ int32range e.p)) ∧
    ((∃ r ∈ rows, r.cx = none) →
      decode_events rows = Except.error Err.decodeError) := by
  constructor
  · intro h
    refine ⟨_, decode_events_ok_of_numeric rows h, by simp, ?_, ?_⟩
    · intro i hi
      rw [List.getD_eq_getElem?_getD, List.getElem?_map,
        List.getElem?_eq_getElem hi, List.getD_eq_getElem?_getD,
        List.getElem?_eq_getElem hi]
      rfl
    · intro e he
      obtain ⟨r, _, hre⟩ := List.mem_map.mp he
      subst hre
      exact ⟨wrap32_range _, wrap32_range _, wrap32_range _⟩
  · exact decode_events_error_of_bad rows

/-- Two all-numeric rows. -/
def demoRows : List RawRow :=
  [⟨some 1, some 2, some 3, some 1⟩, ⟨some 2, some 4, some 5, some 0⟩]

/-- One row whose `x` cell is non-numeric. -/
def badRows : List RawRow := [⟨some 1, none, some 3, some 1⟩]

/-- C2 witness: the two-row numeric source decodes to two records; the source
with a non-numeric `x` fails with the decode error. -/
theorem codec_schema_witness :
    (∃ es, decode_events demoRows = Except.ok es ∧ es.length = 2) ∧
    decode_events badRows = Except.error Err.decodeError := by
  constructor
  · obtain ⟨es, h1, h2, -⟩ := (codec_schema demoRows).1 (by decide)
    exact ⟨es, h1, by rw [h2]; rfl⟩
  · exact (codec_schema badRows).2 ⟨⟨some 1, none, some 3, some 1⟩, by decide, rfl⟩

/-! Sorting facts for the index builder. -/

lemma charListLe_total : ∀ a b : List Char,
    charListLe a b = true ∨ charListLe b a = true
  | [], _ => Or.inl rfl
  | _ :: _, [] => Or.inr rfl
  | x :: xs, y :: ys => by
    by_cases h1 : x.toNat < y.toNat
    · left; simp [charListLe, h1]
    · by_cases h2 : y.toNat < x.toNat
      · right; simp [charListLe, h2]
      · rcases charListLe_total xs ys with h | h
        · left; simp [charListLe, h1, h2, h]
        · right; simp [charListLe, h1, h2, h]

lemma charListLe_trans : ∀ a b c : List Char,
    charListLe a b = true → charListLe b c = true → charListLe a c = true
  | [], _, _, _, _ => rfl
  | _ :: _, [], _, hab, _ => by simp [charListLe] at hab
  | _ :: _, _ :: _, [], _, hbc => by simp [charListLe] at hbc
  | x :: xs, y :: ys, z :: zs, hab, hbc => by
    simp only [charListLe] at hab hbc ⊢
    by_cases hxy : x.toNat < y.toNat
    · by_cases hyz : y.toNat < z.toNat
      · simp [show x.toNat < z.toNat from by omega]
      · by_cases hzy : z.toNat < y.toNat
        · simp [hyz, hzy] at hbc
        · simp [show x.toNat < z.toNat from by omega]
    · by_cases hyx : y.toNat < x.toNat
      · simp [hxy, hyx] at hab
      · by_cases hyz : y.toNat < z.toNat
        · simp [show x.toNat < z.toNat from by omega]
        · by_cases hzy : z.toNat < y.toNat
          · simp [hyz, hzy] at hbc
          · simp [hxy, hyx] at hab
            simp [hyz, hzy] at hbc
            simp [show ¬ x.toNat < z.toNat from by omega,
              show ¬ z.toNat < x.toNat from by omega]
            exact charListLe_trans xs ys zs hab hbc

lemma strLe_total (a b : String) : strLe a b = true ∨ strLe b a = true :=
  charListLe_total a.data b.data

lemma strLe_trans {a b c : String} (hab : strLe a b = true)
    (hbc : strLe b c = true) : strLe a c = true :=
  charListLe_trans a.data b.data c.data hab hbc

lemma insertStr_perm (x : String) (l : List String) :
    (insertStr x l).Perm (x :: l) := by
  induction l with
  | nil => exact List.Perm.refl _
  | cons y ys ih =>
    rw [insertStr]
    by_cases h : strLe x y = true
    · rw [if_pos h]
    · rw [if_neg h]
      exact (ih.cons y).trans (List.Perm.swap x y ys)

lemma insertStr_sorted (x : String) (l : List String)
    (h : l.Pairwise (fun a b => strLe a b = true)) :
    (insertStr x l).Pairwise (fun a b => strLe a b = true) := by
  induction l with
  | nil => simp [insertStr]
  | cons y ys ih =>
    obtain ⟨hy, hys⟩ := List.pairwise_cons.mp h
    rw [insertStr]
    by_cases hxy : strLe x y = true
    · rw [if_pos hxy]
      refine List.pairwise_cons.mpr ⟨?_, h⟩
      intro b hb
      rcases List.mem_cons.mp hb with hb | hb
      · subst hb; exact hxy
      · exact strLe_trans hxy (hy b hb)
    · rw [if_neg hxy]
      refine List.pairwise_cons.mpr ⟨?_, ih hys⟩
      intro b hb
      rcases List.mem_cons.mp ((insertStr_perm x ys).mem_iff.mp hb) with hb' | hb'
      · rw [hb']
        rcases strLe_total x y with hx | hx
        · exact absurd hx hxy
        · exact hx
      · exact hy b hb'

lemma sortStrings_perm (l : List String) : (sortStrings l).Perm l := by
  induction l with
  | nil => exact List.Perm.refl _
  | cons x xs ih => exact (insertStr_perm x (sortStrings xs)).trans (ih.cons x)

lemma sortStrings_sorted (l : List String) :
    (sortStrings l).Pairwise (fun a b => strLe a b = true) := by
  induction l with
  | nil => simp [sortStrings]
  | cons x xs ih => exact insertStr_sorted x (sortStrings xs) ih

/-! C3. -/

/-- C3: for variant `synthetic`, the built index holds exactly one descriptor
per `.csv` event file, in lexicographic file-name order, and every descriptor
pairs `<root>/synthetic/events/<f>` with the label path
`<root>/synthetic/labels/<f>` of identical file name; the result depends only
on the events-directory listing (no existence check touches the label side:
any filesystem with the same events listing builds the same index). -/
theorem index_builder_synthetic (root : String) (fs gs : FS) (files : List String)
    (h : fs.listDir (eventsDir root "synthetic") = some files) :
    ∃ names : List String,
      load_samples root "synthetic" fs =
        Except.ok (names.map fun f =>
          (eventsDir root "synthetic" ++ "/" ++ f,
           some (labelsDir root "synthetic" ++ "/" ++ f))) ∧
      names = (sortStrings files).filter (fun f => strEndsWith f ".csv") ∧
      names.Pairwise (fun a b => strLe a b = true) ∧
      (∀ f ∈ names, strEndsWith f ".csv" = true ∧ f ∈ files) ∧
      (∀ f ∈ files, strEndsWith f ".csv" = true → f ∈ names) ∧
      (gs.listDir (eventsDir root "synthetic") = some files →
        load_samples root "synthetic" gs = load_samples root "synthetic" fs) := by
  refine ⟨(sortStrings files).filter (fun f => strEndsWith f ".csv"),
    ?_, rfl, ?_, ?_, ?_, ?_⟩
  · rw [load_samples, if_pos rfl, h]
  · exact (sortStrings_sorted files).filter _
  · intro f hf
    have hm := List.mem_filter.mp hf
    exact ⟨hm.2, (sortStrings_perm files).mem_iff.mp hm.1⟩
  · intro f hf hcsv
    exact List.mem_filter.mpr ⟨(sortStrings_perm files).mem_iff.mpr hf, hcsv⟩
  · intro hg
    rw [load_samples, if_pos rfl, hg, load_samples, if_pos rfl, h]

/-- Filesystem stub listing three files (two `.csv`, unsorted) everywhere. -/
def fsThree : FS :=
  ⟨fun _ => some ["b.csv", "a.txt", "a.csv"], fun _ => none, fun _ => none,
   fun _ => false, fun _ => false⟩

/-- C3 witness: listing `["b.csv", "a.txt", "a.csv"]` builds the two-descriptor
index `a.csv, b.csv` in sorted order, each paired with the same-named label. -/
theorem index_builder_synthetic_witness :
    load_samples "r" "synthetic" fsThree =
      Except.ok
        [("r/synthetic/events/a.csv", some "r/synthetic/labels/a.csv"),
         ("r/synthetic/events/b.csv", some "r/synthetic/labels/b.csv")] := by
  obtain ⟨names, h1, h2, -⟩ :=
    index_builder_synthetic "r" fsThree fsThree ["b.csv", "a.txt", "a.csv"] rfl
  rw [h1, h2]
  rfl

/-! C4. -/

/-- Filesystem stub with one event file `a.csv` in every directory, every
file readable as an empty CSV, every file present and no directory present. -/
def fsOne : FS :=
  ⟨fun _ => some ["a.csv"], fun _ => some [], fun _ => some [],
   fun _ => true, fun _ => false⟩

/-- C4 counterexample: non-`synthetic` variants are NOT treated identically.
For the tag `"real"` (lowercase) the event file `a.csv` yields no descriptor
at all — the index comes back empty — while the tag `"Real"` yields one
descriptor, so the claimed uniform behaviour fails at variant `"real"`. -/
theorem index_builder_variant_counterexample :
    load_samples "r" "real" fsOne = Except.ok [] ∧
    load_samples "r" "Real" fsOne =
      Except.ok [("r/Real/events/a.csv", none)] := ⟨rfl, rfl⟩

/-- C4 amended: only the exact tag `"Real"` gets the claimed behaviour: every
`.csv` event file under `<root>/Real/events/` becomes a descriptor with an
absent label source (no labels directory is consulted: the result depends
only on the events listing); every other non-`synthetic` tag produces an
empty index without consulting the filesystem at all. -/
theorem index_builder_nonsynthetic (root dtype : String) (fs gs : FS)
    (files : List String) (hns : dtype ≠ "synthetic") :
    (dtype = "Real" → fs.listDir (eventsDir root dtype) = some files →
      load_samples root dtype fs =
        Except.ok (((sortStrings files).filter (fun f => strEndsWith f ".csv")).map
          (fun f => (eventsDir root dtype ++ "/" ++ f, none))) ∧
      (gs.listDir (eventsDir root dtype) = some files →
        load_samples root dtype gs = load_samples root dtype fs)) ∧
    (dtype ≠ "Real" → load_samples root dtype fs = Except.ok []) := by
  constructor
  · intro hR hls
    subst hR
    constructor
    · rw [load_samples, if_neg (by decide), if_pos rfl, hls]
    · intro hg
      rw [load_samples, if_neg (by decide), if_pos rfl, hg,
        load_samples, if_neg (by decide), if_pos rfl, hls]
  · intro hnR
    rw [load_samples, if_neg hns, if_neg hnR]

/-- C4 witness: under tag `"Real"`, the file `a.csv` becomes the single
descriptor with an absent label source; under tag `"other"`, the index is
empty. -/
theorem index_builder_nonsynthetic_witness :
    load_samples "r" "Real" fsOne = Except.ok [("r/Real/events/a.csv", none)] ∧
    load_samples "r" "other" fsOne = Except.ok [] := by
  constructor
  · have h := (index_builder_nonsynthetic "r" "Real" fsOne fsOne ["a.csv"]
      (by decide)).1 rfl rfl
    rw [h.1]
    rfl
  · exact (index_builder_nonsynthetic "r" "other" fsOne fsOne []
      (by decide)).2 (by decide)

/-! C5. -/

lemma pyListGet_length {α : Type} (l : List α) :
    pyListGet l (l.length : Int) = none := by
  rw [pyListGet, if_pos (Int.natCast_nonneg _), Int.toNat_natCast]
  simp

lemma pyListGet_nil {α : Type} (i : Int) : pyListGet ([] : List α) i = none := by
  rw [pyListGet]
  split_ifs with h1 h2
  · simp
  · simp at h2
    omega
  · rfl

/-- One-descriptor dataset whose transform accepts everything. -/
def dsOne : Dataset :=
  ⟨"r", "Real", [("events/traj001.csv", none)], some (fun _ => some [])⟩

/-- C5 counterexample: on a non-empty dataset, `get(-1)` does not fail with a
range error — Python negative indexing resolves it to the last descriptor and
the access succeeds. -/
theorem range_check_counterexample :
    0 < dsOne.samples.length ∧
    getitem dsOne fsOne (-1) = Except.ok (some [], none) :=
  ⟨by norm_num [dsOne], rfl⟩

/-- C5 amended: `get(length())` fails with the range error on every dataset
and for every filesystem (so no I/O is attempted), and on an empty index
every integer argument fails the same way; but `get(-1)` on a non-empty index
does not fail: Python negative indexing makes it equal to `get(length()-1)`. -/
theorem range_check (ds : Dataset) (fs : FS) :
    getitem ds fs (ds.samples.length : Int) = Except.error Err.rangeError ∧
    (ds.samples.length = 0 →
      ∀ i : Int, getitem ds fs i = Except.error Err.rangeError) ∧
    (0 < ds.samples.length →
      getitem ds fs (-1) = getitem ds fs ((ds.samples.length : Int) - 1)) := by
  refine ⟨?_, ?_, ?_⟩
  · rw [getitem, pyListGet_length]
  · intro h i
    have hnil : ds.samples = [] := List.length_eq_zero.mp h
    rw [getitem, hnil, pyListGet_nil]
  · intro h
    have e : pyListGet ds.samples (-1) =
        pyListGet ds.samples ((ds.samples.length : Int) - 1) := by
      rw [pyListGet, if_neg (by omega), if_pos (by omega),
        pyListGet, if_pos (by omega)]
      congr 1
    rw [getitem, e, getitem]

/-- C5 witness: on the one-sample dataset, `get(1)` fails with the range
error while `get(-1)` coincides with `get(0)`. -/
theorem range_check_witness :
    getitem dsOne fsOne ((dsOne.samples.length : Int)) =
      Except.error Err.rangeError ∧
    getitem dsOne fsOne (-1) =
      getitem dsOne fsOne ((dsOne.samples.length : Int) - 1) :=
  ⟨(range_check dsOne fsOne).1,
   (range_check dsOne fsOne).2.2 (by norm_num [dsOne])⟩

/-! C6. -/

/-- One-descriptor dataset constructed with no transform. -/
def dsNoT : Dataset := ⟨"r", "Real", [("events/traj001.csv", none)], none⟩

/-- Filesystem stub on which every directory and file is missing. -/
def fsNone : FS :=
  ⟨fun _ => none, fun _ => none, fun _ => none, fun _ => false, fun _ => false⟩

/-- C6 counterexample: with no transform configured, `get(0)` on a dataset
whose event file is missing fails with the read's not-found error rather than
the configuration error — the event-file read is attempted first, so the
failure neither is guaranteed to be a configuration error nor happens before
I/O. -/
theorem config_error_counterexample :
    dsNoT.transform = none ∧ 0 < dsNoT.samples.length ∧
    getitem dsNoT fsNone 0 = Except.error Err.notFound :=
  ⟨rfl, by norm_num [dsNoT], rfl⟩

/-- C6 amended: with no transform configured, `get` on a valid index fails
with the configuration error provided the event file was read and decoded
successfully — the read happens first, so when the file is missing the
not-found error surfaces instead; the configuration failure occurs after the
I/O, not before it. -/
theorem config_error_after_io (ds : Dataset) (fs : FS) (i : Int) (ef : String)
    (lf : Option String) (rows : List RawRow)
    (ht : ds.transform = none)
    (hidx : pyListGet ds.samples i = some (ef, lf))
    (hread : fs.readFile ef = some rows)
    (hrows : ∀ r ∈ rows, r.ct.isSome ∧ r.cx.isSome ∧ r.cy.isSome ∧ r.cp.isSome) :
    getitem ds fs i = Except.error Err.configError ∧
    (∀ gs : FS, gs.readFile ef = none →
      getitem ds gs i = Except.error Err.notFound) := by
  constructor
  · have hdec := decode_events_ok_of_numeric rows hrows
    simp [getitem, hidx, load_events, hread, hdec, ht]
  · intro gs hg
    simp [getitem, hidx, load_events, hg]

/-- C6 witness: on the transformless dataset, `get(0)` with a readable empty
event file fails with the configuration error, and with a missing event file
fails with the not-found error. -/
theorem config_error_after_io_witness :
    getitem dsNoT fsOne 0 = Except.error Err.configError ∧
    getitem dsNoT fsNone 0 = Except.error Err.notFound := by
  have h := config_error_after_io dsNoT fsOne 0 "events/traj001.csv" none []
    rfl rfl rfl (by simp)
  exact ⟨h.1, h.2 fsNone rfl⟩

/-! C7. -/

/-- C7 counterexample: under the unhandled variant tag `"real"`, the events
directory is missing and yet index construction succeeds with an empty
index — the directory is never consulted, so no not-found error is raised. -/
theorem missing_events_dir_counterexample :
    fsNone.listDir (eventsDir "r" "real") = none ∧
    load_samples "r" "real" fsNone = Except.ok [] := ⟨rfl, rfl⟩

/-- C7 amended: for the handled variant tags `"synthetic"` and `"Real"`, a
missing events directory makes index construction fail with the not-found
error, and an existing empty events directory yields a valid empty index;
every other variant tag never consults the filesystem and unconditionally
yields an empty index. -/
theorem events_dir_existence (root dtype : String) (fs : FS) :
    (dtype = "synthetic" ∨ dtype = "Real" →
      (fs.listDir (eventsDir root dtype) = none →
        load_samples root dtype fs = Except.error Err.notFound) ∧
      (fs.listDir (eventsDir root dtype) = some [] →
        load_samples root dtype fs = Except.ok [])) ∧
    (dtype ≠ "synthetic" → dtype ≠ "Real" →
      load_samples root dtype fs = Except.ok []) := by
  constructor
  · rintro (h | h) <;> subst h
    · exact ⟨fun hm => by rw [load_samples, if_pos rfl, hm],
        fun he => by rw [load_samples, if_pos rfl, he]; rfl⟩
    · exact ⟨fun hm => by rw [load_samples, if_neg (by decide), if_pos rfl, hm],
        fun he => by rw [load_samples, if_neg (by decide), if_pos rfl, he]; rfl⟩
  · intro h1 h2
    rw [load_samples, if_neg h1, if_neg h2]

/-- Filesystem stub on which every directory exists but is empty. -/
def fsEmptyDir : FS :=
  ⟨fun _ => some [], fun _ => none, fun _ => none, fun _ => false, fun _ => false⟩

/-- C7 witness: under `"synthetic"`, a missing events directory fails with the
not-found error and an empty one builds the empty index; the unhandled tag
`"other"` builds an empty index even with no filesystem at all. -/
theorem events_dir_existence_witness :
    load_samples "r" "synthetic" fsNone = Except.error Err.notFound ∧
    load_samples "r" "synthetic" fsEmptyDir = Except.ok [] ∧
    load_samples "r" "other" fsNone = Except.ok [] :=
  ⟨((events_dir_existence "r" "synthetic" fsNone).1 (Or.inl rfl)).1 rfl,
   ((events_dir_existence "r" "synthetic" fsEmptyDir).1 (Or.inl rfl)).2 rfl,
   (events_dir_existence "r" "other" fsNone).2 (by decide) (by decide)⟩

/-! C8, C9, C10. -/

/-- One-descriptor dataset whose transform rejects every sample. -/
def dsRej : Dataset :=
  ⟨"r", "synthetic", [("events/traj001.csv", none)], some (fun _ => none)⟩

/-- C8: when the fetched sample's events value is absent (the transform
filtered the sample), `save_sample` logs the rejection and returns with a
success outcome: the effect trace holds only the directory creation (when the
directory was absent) and the log line — no frame file and no label file is
written, the filtered outcome is not propagated as an error, and the created
directory is left in place rather than rolled back. -/
theorem materializer_filtered (ds : Dataset) (fs : FS) (idx : Int)
    (out ef : String) (lf : Option String) (ls : Option LabelData)
    (hidx : pyListGet ds.samples idx = some (ef, lf))
    (hget : getitem ds fs idx = Except.ok (none, ls)) :
    save_sample ds fs idx out =
      ((if fs.hasDir (out ++ "/" ++ trajName ef ++ "/") then []
        else [Effect.mkdirE (out ++ "/" ++ trajName ef ++ "/")]) ++
        [Effect.logE rejectMsg],
       Except.ok ()) := by
  simp only [save_sample, hidx, hget]

/-- C8 witness: the rejecting dataset's sample 0 produces exactly the mkdir
effect and the log line, with the ok outcome. -/
theorem materializer_filtered_witness :
    save_sample dsRej fsOne 0 "out" =
      ([Effect.mkdirE "out/traj001/", Effect.logE rejectMsg], Except.ok ()) := by
  have h := materializer_filtered dsRej fsOne 0 "out" "events/traj001.csv"
    none none rfl rfl
  rw [h]
  rfl

/-- The full effect trace and outcome of `save_sample` on a non-filtered
sample, as one equation. -/
lemma save_sample_some (ds : Dataset) (fs : FS) (idx : Int)
    (out ef : String) (lf : Option String) (evs : List Grid)
    (ls : Option LabelData)
    (hidx : pyListGet ds.samples idx = some (ef, lf))
    (hget : getitem ds fs idx = Except.ok (some evs, ls)) :
    save_sample ds fs idx out =
      (let traj := trajName ef
       let dir := out ++ "/" ++ traj ++ "/"
       let mk : List Effect :=
         if fs.hasDir dir then [] else [Effect.mkdirE dir]
       let writes := (generate_rgb_from_samples evs).enum.map fun pr =>
         Effect.writeFrameE
           (dir ++ "img" ++ pad3 pr.1 ++ "_" ++ strDrop traj 4 ++ ".png")
       let csv_src := root_dir ++ "/synthetic/labels/" ++ traj ++ ".csv"
       let csv_dst := dir ++ traj ++ ".csv"
       if fs.hasFile csv_src then
         (mk ++ writes ++ [Effect.copyE csv_src csv_dst], Except.ok ())
       else (mk ++ writes, Except.error Err.notFound)) := by
  simp only [save_sample, hidx, hget]

/-- C9: `save_sample` copies the label CSV from the fixed path
`<module root_dir>/synthetic/labels/<name>.csv`, re-derived from the sample's
name alone — the descriptor's recorded label source `lf` is arbitrary here and
plays no role — into `<out>/<name>/<name>.csv`; when no file exists at that
fixed source path the call fails with the not-found error and performs no
copy. -/
theorem materializer_label_copy (ds : Dataset) (fs : FS) (idx : Int)
    (out ef : String) (lf : Option String) (evs : List Grid)
    (ls : Option LabelData)
    (hidx : pyListGet ds.samples idx = some (ef, lf))
    (hget : getitem ds fs idx = Except.ok (some evs, ls)) :
    (fs.hasFile (root_dir ++ "/synthetic/labels/" ++ trajName ef ++ ".csv") =
        true →
      (save_sample ds fs idx out).2 = Except.ok () ∧
      Effect.copyE (root_dir ++ "/synthetic/labels/" ++ trajName ef ++ ".csv")
          (out ++ "/" ++ trajName ef ++ "/" ++ trajName ef ++ ".csv") ∈
        (save_sample ds fs idx out).1) ∧
    (fs.hasFile (root_dir ++ "/synthetic/labels/" ++ trajName ef ++ ".csv") =
        false →
      (save_sample ds fs idx out).2 = Except.error Err.notFound ∧
      ∀ s d : String, Effect.copyE s d ∉ (save_sample ds fs idx out).1) := by
  rw [save_sample_some ds fs idx out ef lf evs ls hidx hget]
  constructor
  · intro hhas
    simp only [hhas, if_true]
    exact ⟨trivial, by simp⟩
  · intro hhas
    simp only [hhas, Bool.false_eq_true, if_false]
    refine ⟨trivial, ?_⟩
    intro s d hmem
    rcases List.mem_append.mp hmem with hm | hm
    · by_cases hdir : fs.hasDir (out ++ "/" ++ trajName ef ++ "/") = true
      · simp [hdir] at hm
      · simp only [Bool.not_eq_true] at hdir
        simp [hdir] at hm
    · obtain ⟨pr, -, hpr⟩ := List.mem_map.mp hm
      exact Effect.noConfusion hpr

/-- Six transformed grids: two full frame groups. -/
def sixGrids : List Grid := List.replicate 6 (constGrid 0)

/-- One-descriptor dataset whose transform yields six grids. -/
def dsSix : Dataset :=
  ⟨"r", "synthetic", [("events/traj001.csv", none)], some (fun _ => some sixGrids)⟩

/-- C9 witness: materializing sample 0 of the six-grid dataset copies the
label CSV from the module-global fixed path into the output directory and
succeeds. -/
theorem materializer_label_copy_witness :
    (save_sample dsSix fsOne 0 "out").2 = Except.ok () ∧
    Effect.copyE "/Users/jost/Downloads/SPADES/synthetic/labels/traj001.csv"
        "out/traj001/traj001.csv" ∈ (save_sample dsSix fsOne 0 "out").1 := by
  have h := (materializer_label_copy dsSix fsOne 0 "out" "events/traj001.csv"
    none sixGrids none rfl rfl).1 rfl
  exact ⟨h.1, h.2⟩

/-- C10: the frame image files written by `save_sample` are exactly, in
order, `img<NNN>_<suffix>.png` inside the sample's output directory, where
`NNN` counts frames from 0 zero-padded to 3 digits and `<suffix>` is the
sample's name with its first four characters removed — one file per rendered
frame. -/
theorem materializer_frame_naming (ds : Dataset) (fs : FS) (idx : Int)
    (out ef : String) (lf : Option String) (evs : List Grid)
    (ls : Option LabelData)
    (hidx : pyListGet ds.samples idx = some (ef, lf))
    (hget : getitem ds fs idx = Except.ok (some evs, ls)) :
    framePaths (save_sample ds fs idx out).1 =
      (List.range (generate_rgb_from_samples evs).length).map fun n =>
        out ++ "/" ++ trajName ef ++ "/" ++ "img" ++ pad3 n ++ "_" ++
          strDrop (trajName ef) 4 ++ ".png" := by
  rw [save_sample_some ds fs idx out ef lf evs ls hidx hget]
  simp only
  have hwrites : framePaths
      ((generate_rgb_from_samples evs).enum.map fun pr =>
        Effect.writeFrameE
          (out ++ "/" ++ trajName ef ++ "/" ++ "img" ++ pad3 pr.1 ++ "_" ++
            strDrop (trajName ef) 4 ++ ".png")) =
      (List.range (generate_rgb_from_samples evs).length).map fun n =>
        out ++ "/" ++ trajName ef ++ "/" ++ "img" ++ pad3 n ++ "_" ++
          strDrop (trajName ef) 4 ++ ".png" := by
    rw [framePaths, List.filterMap_map]
    rw [show ((fun e => match e with
        | Effect.writeFrameE p => some p
        | _ => none) ∘ fun pr : Nat × Frame =>
          Effect.writeFrameE
            (out ++ "/" ++ trajName ef ++ "/" ++ "img" ++ pad3 pr.1 ++ "_" ++
              strDrop (trajName ef) 4 ++ ".png")) =
      (some ∘ fun pr : Nat × Frame =>
        out ++ "/" ++ trajName ef ++ "/" ++ "img" ++ pad3 pr.1 ++ "_" ++
          strDrop (trajName ef) 4 ++ ".png") from rfl]
    rw [List.filterMap_eq_map]
    rw [show (fun pr : Nat × Frame =>
        out ++ "/" ++ trajName ef ++ "/" ++ "img" ++ pad3 pr.1 ++ "_" ++
          strDrop (trajName ef) 4 ++ ".png") =
      ((fun n : Nat =>
        out ++ "/" ++ trajName ef ++ "/" ++ "img" ++ pad3 n ++ "_" ++
          strDrop (trajName ef) 4 ++ ".png") ∘ Prod.fst) from rfl]
    rw [← List.map_map, List.enum_map_fst]
  have hmk : framePaths
      (if fs.hasDir (out ++ "/" ++ trajName ef ++ "/") then []
       else [Effect.mkdirE (out ++ "/" ++ trajName ef ++ "/")]) = [] := by
    by_cases hdir : fs.hasDir (out ++ "/" ++ trajName ef ++ "/") = true
    · rw [if_pos hdir]; rfl
    · simp only [Bool.not_eq_true] at hdir
      simp only [hdir, Bool.false_eq_true, if_false]; rfl
  by_cases hhas : fs.hasFile
      (root_dir ++ "/synthetic/labels/" ++ trajName ef ++ ".csv") = true
  · simp only [hhas, if_true]
    rw [framePaths, List.filterMap_append, List.filterMap_append,
      ← framePaths, ← framePaths, ← framePaths, hmk, hwrites]
    simp [framePaths]
  · simp only [Bool.not_eq_true] at hhas
    simp only [hhas, Bool.false_eq_true, if_false]
    rw [framePaths, List.filterMap_append, ← framePaths, ← framePaths,
      hmk, hwrites]
    simp

/-- C10 witness: the six-grid sample `traj001` writes exactly
`img000_001.png` and `img001_001.png` into `out/traj001/`. -/
theorem materializer_frame_naming_witness :
    framePaths (save_sample dsSix fsOne 0 "out").1 =
      ["out/traj001/img000_001.png", "out/traj001/img001_001.png"] := by
  have h := materializer_frame_naming dsSix fsOne 0 "out" "events/traj001.csv"
    none sixGrids none rfl rfl
  rw [h]
  rfl

end SpadesLoader
